import Mathlib

/-!
# spotcontrol: discovery.go

A shallow embedding of `src/discovery.go` (package `spotcontrol`): the
Spotify-Connect pairing handshake (`handleAddUser`, the HTTP handler
registered by `startHttp`, `makeGetInfo`) and the mDNS device lookup
(`findCpath`, the receive loop of `FindDevices`).

Conventions of the embedding

* Go strings are Lean `String`s (valid UTF-8 text); the Go standard-library
  functions used by the source (`strings.Contains`, `strings.Split`,
  `strings.Replace`, `base64.StdEncoding.EncodeToString`) are given
  executable models below.  The patterns the source passes to them are
  ASCII, so working on characters agrees with working on bytes.
* A Go `error` result is an `Option String`: `none` is `nil`, `some msg`
  is `errors.New(msg)`.
* A Go run-time panic is part of the result: the `none` of an `Option`
  result for the index out of range in `findCpath`, the completion
  `Completion.panics` for the nil pointer dereference in `handleAddUser`.
* Calls on external collaborators (the blob codec, the cache file, the mDNS
  server, the `done` channel, the HTTP response writer) are recorded, in
  program order, in a list of `Effect`s, and so are the lines written with
  `log.Println`.  The debugging output on standard output (`fmt.Println`)
  is not part of the model.
-/

namespace spotcontrol

/-! ## Go standard library: strings -/

/-- Substring test on character lists: some suffix of the first list starts
with the second list. -/
def containsChars : List Char → List Char → Bool
  | [], sub => sub.isEmpty
  | c :: cs, sub => sub.isPrefixOf (c :: cs) || containsChars cs sub

/-- Model of Go `strings.Contains(s, substr)`. -/
def stringsContains (s substr : String) : Bool :=
  containsChars s.data substr.data

/-- Worker of `stringsSplit` for a non-empty separator `sep`.  `skip` counts
the characters of a separator occurrence that are still to be consumed,
`cur` is the current piece in reverse order. -/
def splitChars (sep : List Char) : Nat → List Char → List Char → List (List Char)
  | _, cur, [] => [cur.reverse]
  | skip + 1, cur, _ :: cs => splitChars sep skip cur cs
  | 0, cur, c :: cs =>
    if sep.isPrefixOf (c :: cs) then
      cur.reverse :: splitChars sep (sep.length - 1) [] cs
    else
      splitChars sep 0 (c :: cur) cs

/-- Model of Go `strings.Split(s, sep)`: the pieces of `s` between the
non-overlapping occurrences of `sep`, scanning from the left; for the empty
separator the string is cut after every character. -/
def stringsSplit (s sep : String) : List String :=
  if sep.data.isEmpty then s.data.map (fun c => String.mk [c])
  else (splitChars sep.data 0 [] s.data).map String.mk

/-- Worker of `stringsReplaceFirst` on character lists. -/
def replaceFirstChars (old new : List Char) : List Char → List Char
  | [] => if old.isEmpty then new else []
  | c :: cs =>
    if old.isPrefixOf (c :: cs) then new ++ (c :: cs).drop old.length
    else c :: replaceFirstChars old new cs

/-- Model of Go `strings.Replace(s, old, new, 1)`: the leftmost occurrence
of `old` in `s` is replaced by `new`. -/
def stringsReplaceFirst (s old new : String) : String :=
  String.mk (replaceFirstChars old.data new.data s.data)

/-! ## Device lookup -/

/-- The struct `connectDeviceMdns`. -/
structure connectDeviceMdns where
  path : String
  name : String
  deriving DecidableEq, Repr

/-- The fields of `mdns.ServiceEntry` that `FindDevices` reads.  `AddrV4`
holds the text that `%v` prints for the entry's IPv4 address. -/
structure ServiceEntry where
  Name : String
  AddrV4 : String
  Port : Int
  InfoFields : List String
  deriving DecidableEq, Repr

/-- The function `findCpath`.  The result is `none` when the source panics:
the expression `strings.Split(i, "=")[1]` indexes a slice of length 1. -/
def findCpath : List String → Option String
  | [] => some ""
  | i :: rest =>
    if stringsContains i "CPath" then (stringsSplit i "=")[1]?
    else findCpath rest

/-- One iteration of the receive loop of `FindDevices` (the body of
`for entry := range ch`), on the `devices` slice.  `none` when `findCpath`
panics. -/
def onEntry (devices : List connectDeviceMdns) (entry : ServiceEntry) :
    Option (List connectDeviceMdns) :=
  match findCpath entry.InfoFields with
  | none => none
  | some cPath =>
    some (devices ++
      [{ path := "http://" ++ entry.AddrV4 ++ ":" ++ toString entry.Port ++ cPath,
         name := stringsReplaceFirst entry.Name "._spotify-connect._tcp.local." "" }])

/-- The receive loop of `FindDevices` over the entries delivered on the
channel, in order of arrival. -/
def receiveEntries : List connectDeviceMdns → List ServiceEntry →
    Option (List connectDeviceMdns)
  | devices, [] => some devices
  | devices, entry :: rest =>
    match onEntry devices entry with
    | none => none
    | some devices1 => receiveEntries devices1 rest

/-! ## Go standard library: base64 -/

/-- The alphabet of `base64.StdEncoding`. -/
def base64StdAlphabet : List Char :=
  "ABCDEFGHIJKLMNOPQRSTUVWXYZabcdefghijklmnopqrstuvwxyz0123456789+/".data

/-- The character of a 6-bit value in the standard alphabet. -/
def base64Digit (n : Nat) : Char := base64StdAlphabet.getD n '='

/-- Base64 encoding of a list of bytes (values below 256), three bytes to
four characters, with `=` padding of the last group. -/
def base64Chars : List Nat → List Char
  | [] => []
  | [a] => [base64Digit (a / 4), base64Digit (a % 4 * 16), '=', '=']
  | [a, b] =>
    [base64Digit (a / 4), base64Digit (a % 4 * 16 + b / 16),
     base64Digit (b % 16 * 4), '=']
  | a :: b :: c :: rest =>
    base64Digit (a / 4) :: base64Digit (a % 4 * 16 + b / 16) ::
      base64Digit (b % 16 * 4 + c / 64) :: base64Digit (c % 64) ::
      base64Chars rest

/-- Model of Go `base64.StdEncoding.EncodeToString(src)`; a byte is a
natural number taken modulo 256. -/
def base64StdEncode (src : List Nat) : String :=
  String.mk (base64Chars (src.map (fun b => b % 256)))

/-! ## Pairing handshake -/

/-- Modelled from the spec: the struct `BlobInfo` is declared outside
`src/`; the source reads and compares its field `Username`, the spec (§3,
Credential) gives it a user name and an opaque payload of bytes. -/
structure BlobInfo where
  Username : String
  EncryptedPayload : List Nat
  deriving DecidableEq, Repr

/-- Modelled from the spec: the type `privateKeys` and its method `pubKey`
are declared outside `src/`; the spec (§3, Identity) gives a session a key
pair of a private and a public key. -/
structure privateKeys where
  privateKey : List Nat
  publicKey : List Nat
  deriving DecidableEq, Repr

/-- Modelled from the spec: the method `pubKey` of `privateKeys`, the bytes
of the public key of the pair. -/
def privateKeys.pubKey (k : privateKeys) : List Nat := k.publicKey

/-- The struct `getInfo`, the status document of the handshake. -/
structure getInfo where
  Status : Int
  StatusError : String
  SpotifyError : Int
  Version : String
  DeviceID : String
  RemoteName : String
  ActiveUser : String
  PublicKey : String
  DeviceType : String
  LibraryVersion : String
  AccountReq : String
  BrandDisplayName : String
  ModelDisplayName : String
  deriving DecidableEq, Repr

/-- The function `makeGetInfo`. -/
def makeGetInfo (deviceId deviceName publicKey : String) : getInfo :=
  { Status := 101
    StatusError := "ERROR-OK"
    SpotifyError := 0
    Version := "1.3.0"
    DeviceID := deviceId
    RemoteName := deviceName
    ActiveUser := ""
    PublicKey := publicKey
    DeviceType := "UNKNOWN"
    LibraryVersion := "0.1.0"
    AccountReq := "PREMIUM"
    BrandDisplayName := "librespot"
    ModelDisplayName := "librespot" }

/-- The value behind a non-nil `*mdns.Server`: the server that
`startDiscoverable` creates for a service instance.  The library type is
external; the model keeps the name of the advertised service instance. -/
structure MdnsServer where
  service : String
  deriving DecidableEq, Repr

/-- The struct `discovery`.  The pointer `mdnsServer` is `none` when it is
nil: `loginFromConnect` builds the session without it and starts the HTTP
handler (`go d.startHttp(done)`) before `startDiscoverable` assigns it, and
`discoveryFromBlob` never assigns it.  The fields `httpServer` and
`devicesLock` are not read by the modelled code and are left out. -/
structure discovery where
  keys : privateKeys
  cachePath : String
  loginBlob : BlobInfo
  deviceId : String
  mdnsServer : Option MdnsServer
  devices : List connectDeviceMdns
  deriving DecidableEq, Repr

/-- The effect of the method `FindDevices` on the session once its receive
goroutine has consumed the given entries: `d.devices` is reset to the empty
slice, then the loop appends for the entries that `mdns.Lookup` delivers on
the channel.  (`FindDevices` itself returns when `mdns.Lookup` returns; the
goroutine goes on receiving.)  `none` when the loop panics. -/
def FindDevices (d : discovery) (entries : List ServiceEntry) : Option discovery :=
  match receiveEntries [] entries with
  | none => none
  | some devices => some { d with devices := devices }

/-- The parsed form of an `http.Request`: the map `r.Form` as an association
list from a parameter name to its values. -/
structure Request where
  Form : List (String × List String)
  deriving DecidableEq, Repr

/-- Model of `r.FormValue(key)`: the first value of the named parameter, the
empty string when there is none. -/
def Request.FormValue (r : Request) (key : String) : String :=
  match r.Form.lookup key with
  | some (v :: _) => v
  | _ => ""

/-- The calls on external collaborators that the handshake code makes. -/
inductive Effect where
  /-- A call `newBlobInfo(blob64, client64, keys, deviceId, username)`. -/
  | newBlobInfo (blob64 client64 : String) (keys : privateKeys)
      (deviceId username : String)
  /-- A call `blob.saveToFile(cachePath)`. -/
  | saveToFile (blob : BlobInfo) (cachePath : String)
  /-- A call `log.Println(msg)`. -/
  | logPrintln (msg : String)
  /-- The call `d.mdnsServer.Shutdown()`. -/
  | mdnsShutdown
  /-- The send statement `done <- v`. -/
  | doneSend (v : Int)
  /-- A call `w.Header().Set(key, value)`. -/
  | setHeader (key value : String)
  /-- The call `w.Write(js)` where `js` is the JSON encoding of `info`. -/
  | writeJSON (info : getInfo)
  deriving DecidableEq, Repr

/-- The functions of the repository that `handleAddUser` calls and that are
defined outside `src/`: the blob codec `newBlobInfo` (its error is the
`Except` error) and the cache file writer `saveToFile` (with the result of a
Go `error`). -/
structure Collaborators where
  newBlobInfo : String → String → privateKeys → String → String →
    Except String BlobInfo
  saveToFile : BlobInfo → String → Option String

/-- How a call of `handleAddUser` ends: it returns an `error` (`none` is
`nil`), or it panics. -/
inductive Completion where
  | returns (err : Option String)
  | panics
  deriving DecidableEq, Repr

/-- The method `handleAddUser`: the session afterwards, how the call ends
and the effects in program order.  The last statement,
`d.mdnsServer.Shutdown()`, is not guarded: on a nil `mdnsServer` it panics
with a nil pointer dereference, after the credential has been assigned. -/
def handleAddUser (C : Collaborators) (d : discovery) (r : Request) :
    discovery × Completion × List Effect :=
  if d.loginBlob.Username ≠ "" then (d, Completion.returns none, [])
  else
    let username := r.FormValue "userName"
    let client64 := r.FormValue "clientKey"
    let blob64 := r.FormValue "blob"
    if username = "" ∨ client64 = "" ∨ blob64 = "" then
      (d, Completion.returns (some "Bad username request"),
        [Effect.logPrintln "Bad request, addUser"])
    else
      match C.newBlobInfo blob64 client64 d.keys d.deviceId username with
      | Except.error _ =>
        (d, Completion.returns (some "failed to decode blob"),
          [Effect.newBlobInfo blob64 client64 d.keys d.deviceId username])
      | Except.ok blob =>
        let saved :=
          [Effect.newBlobInfo blob64 client64 d.keys d.deviceId username,
           Effect.saveToFile blob d.cachePath] ++
          (match C.saveToFile blob d.cachePath with
           | some _ => [Effect.logPrintln "failed to cache login info"]
           | none => [])
        match d.mdnsServer with
        | some _ =>
          ({ d with loginBlob := blob }, Completion.returns none,
            saved ++ [Effect.mdnsShutdown])
        | none => ({ d with loginBlob := blob }, Completion.panics, saved)

/-- The request handler that `startHttp` registers for the path `/`: the
session afterwards and the effects in program order.  `json.Marshal` of a
`getInfo` value does not fail, so the error branch after it is not taken.
A panic of `handleAddUser` ends the handler before the send on `done`; the
HTTP server recovers it and goes on serving. -/
def startHttpHandler (C : Collaborators) (d : discovery) (r : Request) :
    discovery × List Effect :=
  let action := r.FormValue "action"
  if action = "getInfo" ∨ action = "resetUsers" then
    let client64 := base64StdEncode d.keys.pubKey
    let info := makeGetInfo d.deviceId "spotcontrol" client64
    (d, [Effect.setHeader "Content-Type" "application/json", Effect.writeJSON info])
  else if action = "addUser" then
    match handleAddUser C d r with
    | (d1, Completion.returns none, effects) => (d1, effects ++ [Effect.doneSend 1])
    | (d1, Completion.returns (some _), effects) => (d1, effects)
    | (d1, Completion.panics, effects) => (d1, effects)
  else (d, [])

/-- The handler applied to a sequence of requests, one after the other. -/
def serveRequests (C : Collaborators) : discovery → List Request →
    discovery × List Effect
  | d, [] => (d, [])
  | d, r :: rest =>
    let step := startHttpHandler C d r
    let tail := serveRequests C step.1 rest
    (tail.1, step.2 ++ tail.2)

/-- The number of send statements on the `done` channel among the effects. -/
def doneSends (effects : List Effect) : Nat :=
  effects.countP (fun e => match e with
    | Effect.doneSend _ => true
    | _ => false)

/-! ## Sample values -/

/-- A codec for the examples: it accepts every blob but `garbage` and names
the credential after the user name it is given, as the first end-to-end
scenario of the spec (§8) expects of the codec. -/
def sampleCodec (blob64 _client64 : String) (_keys : privateKeys)
    (_deviceId username : String) : Except String BlobInfo :=
  if blob64 = "garbage" then Except.error "bad blob"
  else Except.ok { Username := username, EncryptedPayload := [1, 2, 3] }

/-- Collaborators whose cache file is writable. -/
def sampleCollaborators : Collaborators :=
  { newBlobInfo := sampleCodec, saveToFile := fun _ _ => none }

/-- Collaborators whose cache file cannot be written. -/
def readOnlyCollaborators : Collaborators :=
  { newBlobInfo := sampleCodec, saveToFile := fun _ _ => some "permission denied" }

/-- A session of `loginFromConnect` once `startDiscoverable` has returned:
no credential, the advertiser set. -/
def freshSession : discovery :=
  { keys := { privateKey := [7], publicKey := [77, 97, 110] }
    cachePath := ""
    loginBlob := { Username := "", EncryptedPayload := [] }
    deviceId := "dev1"
    mdnsServer := some { service := "spotcontrol189" }
    devices := [] }

/-- A session of `loginFromConnect` whose HTTP handler is already served
while `startDiscoverable` has not yet assigned `mdnsServer`: no credential,
the advertiser nil. -/
def unadvertisedSession : discovery :=
  { freshSession with mdnsServer := none }

/-- A well-formed `addUser` request. -/
def goodAddUser : Request :=
  { Form := [("action", ["addUser"]), ("userName", ["alice"]),
             ("clientKey", ["a2V5"]), ("blob", ["YmxvYg=="])] }

/-- An `addUser` request with an empty `blob`. -/
def emptyBlobAddUser : Request :=
  { Form := [("action", ["addUser"]), ("userName", ["bob"]),
             ("clientKey", ["a2V5"]), ("blob", [""])] }

/-- An `addUser` request whose blob the sample codec rejects. -/
def garbageAddUser : Request :=
  { Form := [("action", ["addUser"]), ("userName", ["carol"]),
             ("clientKey", ["a2V5"]), ("blob", ["garbage"])] }

/-- A session that holds a credential. -/
def pairedSession : discovery :=
  { freshSession with loginBlob := { Username := "alice", EncryptedPayload := [1, 2, 3] } }

/-- A well-formed `addUser` request of another user. -/
def otherAddUser : Request :=
  { Form := [("action", ["addUser"]), ("userName", ["mallory"]),
             ("clientKey", ["b3RoZXI="]), ("blob", ["ZXZpbA=="])] }

/-- A `getInfo` request. -/
def getInfoRequest : Request := { Form := [("action", ["getInfo"])] }

/-- A `resetUsers` request. -/
def resetUsersRequest : Request := { Form := [("action", ["resetUsers"])] }

/-- A lookup entry with a well-formed callback-path attribute. -/
def sampleEntry : ServiceEntry :=
  { Name := "kitchen._spotify-connect._tcp.local."
    AddrV4 := "192.168.1.20"
    Port := 8080
    InfoFields := ["VERSION=1.0", "CPath=/"] }

/-- The first attribute that contains `CPath`, the one `findCpath` reads,
has the form `CPath=<path>`. -/
def firstCPathWellFormed : List String → Bool
  | [] => false
  | a :: rest =>
    if stringsContains a "CPath" then "CPath=".data.isPrefixOf a.data
    else firstCPathWellFormed rest

/-- A lookup entry that carries the well-formed attribute `CPath=/` after an
attribute that contains `CPath` and no `=`. -/
def shadowedEntry : ServiceEntry :=
  { Name := "kitchen._spotify-connect._tcp.local."
    AddrV4 := "192.168.1.20"
    Port := 8080
    InfoFields := ["CPath", "CPath=/"] }

/-- A lookup entry without a callback-path attribute. -/
def bareEntry : ServiceEntry :=
  { Name := "kitchen._spotify-connect._tcp.local."
    AddrV4 := "192.168.1.20"
    Port := 8080
    InfoFields := ["VERSION=1.0"] }

/-- A lookup entry whose callback-path attribute has no `=`. -/
def malformedEntry : ServiceEntry :=
  { Name := "kitchen._spotify-connect._tcp.local."
    AddrV4 := "192.168.1.20"
    Port := 8080
    InfoFields := ["VERSION=1.0", "CPath"] }

/-! ## Lemmas on `handleAddUser` -/

theorem handleAddUser_of_held (C : Collaborators) (d : discovery) (r : Request)
    (hheld : d.loginBlob.Username ≠ "") :
    handleAddUser C d r = (d, Completion.returns none, []) := by
  simp [handleAddUser, hheld]

theorem handleAddUser_of_missing (C : Collaborators) (d : discovery) (r : Request)
    (hcred : d.loginBlob.Username = "")
    (hmissing : r.FormValue "userName" = "" ∨ r.FormValue "clientKey" = "" ∨
      r.FormValue "blob" = "") :
    handleAddUser C d r =
      (d, Completion.returns (some "Bad username request"),
        [Effect.logPrintln "Bad request, addUser"]) := by
  simp [handleAddUser, hcred, hmissing]

theorem handleAddUser_of_decodeError (C : Collaborators) (d : discovery) (r : Request)
    (msg : String) (hcred : d.loginBlob.Username = "")
    (huser : r.FormValue "userName" ≠ "") (hkey : r.FormValue "clientKey" ≠ "")
    (hblob : r.FormValue "blob" ≠ "")
    (hdec : C.newBlobInfo (r.FormValue "blob") (r.FormValue "clientKey") d.keys
      d.deviceId (r.FormValue "userName") = Except.error msg) :
    handleAddUser C d r =
      (d, Completion.returns (some "failed to decode blob"),
        [Effect.newBlobInfo (r.FormValue "blob") (r.FormValue "clientKey") d.keys
          d.deviceId (r.FormValue "userName")]) := by
  simp [handleAddUser, hcred, huser, hkey, hblob, hdec]

/-- On a session without credential whose advertiser is set, a well-formed
request that the codec decodes: `nil` is returned, the credential is the
decoded blob and `Shutdown` is the last effect, whatever `saveToFile`
returns. -/
theorem handleAddUser_of_decoded (C : Collaborators) (d : discovery) (r : Request)
    (blob : BlobInfo) (srv : MdnsServer) (hcred : d.loginBlob.Username = "")
    (hserver : d.mdnsServer = some srv)
    (huser : r.FormValue "userName" ≠ "") (hkey : r.FormValue "clientKey" ≠ "")
    (hblob : r.FormValue "blob" ≠ "")
    (hdec : C.newBlobInfo (r.FormValue "blob") (r.FormValue "clientKey") d.keys
      d.deviceId (r.FormValue "userName") = Except.ok blob) :
    handleAddUser C d r =
      ({ d with loginBlob := blob }, Completion.returns none,
        [Effect.newBlobInfo (r.FormValue "blob") (r.FormValue "clientKey") d.keys
          d.deviceId (r.FormValue "userName"),
         Effect.saveToFile blob d.cachePath] ++
        (match C.saveToFile blob d.cachePath with
         | some _ => [Effect.logPrintln "failed to cache login info"]
         | none => []) ++
        [Effect.mdnsShutdown]) := by
  simp [handleAddUser, hcred, hserver, huser, hkey, hblob, hdec]

/-- On a session without credential whose advertiser is nil, a well-formed
request that the codec decodes: the credential is assigned and the call
panics at `Shutdown`. -/
theorem handleAddUser_of_decoded_nil (C : Collaborators) (d : discovery) (r : Request)
    (blob : BlobInfo) (hcred : d.loginBlob.Username = "")
    (hserver : d.mdnsServer = none)
    (huser : r.FormValue "userName" ≠ "") (hkey : r.FormValue "clientKey" ≠ "")
    (hblob : r.FormValue "blob" ≠ "")
    (hdec : C.newBlobInfo (r.FormValue "blob") (r.FormValue "clientKey") d.keys
      d.deviceId (r.FormValue "userName") = Except.ok blob) :
    handleAddUser C d r =
      ({ d with loginBlob := blob }, Completion.panics,
        [Effect.newBlobInfo (r.FormValue "blob") (r.FormValue "clientKey") d.keys
          d.deviceId (r.FormValue "userName"),
         Effect.saveToFile blob d.cachePath] ++
        (match C.saveToFile blob d.cachePath with
         | some _ => [Effect.logPrintln "failed to cache login info"]
         | none => [])) := by
  simp [handleAddUser, hcred, hserver, huser, hkey, hblob, hdec]

/-! ## The `addUser` action -/

/-- C1, the code at a failing input: a session without credential whose
`mdnsServer` is still nil (the handler is served before `startDiscoverable`
has assigned it) receives a well-formed `addUser` request whose blob the
codec decodes.  `handleAddUser` assigns the decoded credential and then
panics at `d.mdnsServer.Shutdown()`: it does not return `nil`, no
advertiser is shut down, and the handler sends nothing on `done`. -/
theorem handleAddUser_panics_on_nil_mdnsServer :
    unadvertisedSession.loginBlob.Username = "" ∧
    unadvertisedSession.mdnsServer = none ∧
    goodAddUser.FormValue "userName" ≠ "" ∧
    goodAddUser.FormValue "clientKey" ≠ "" ∧
    goodAddUser.FormValue "blob" ≠ "" ∧
    sampleCollaborators.newBlobInfo (goodAddUser.FormValue "blob")
      (goodAddUser.FormValue "clientKey") unadvertisedSession.keys
      unadvertisedSession.deviceId (goodAddUser.FormValue "userName") =
      Except.ok ⟨"alice", [1, 2, 3]⟩ ∧
    handleAddUser sampleCollaborators unadvertisedSession goodAddUser =
      ({ unadvertisedSession with loginBlob := ⟨"alice", [1, 2, 3]⟩ },
       Completion.panics,
       [Effect.newBlobInfo "YmxvYg==" "a2V5" unadvertisedSession.keys "dev1" "alice",
        Effect.saveToFile ⟨"alice", [1, 2, 3]⟩ ""]) ∧
    (handleAddUser sampleCollaborators unadvertisedSession goodAddUser).2.1 ≠
      Completion.returns none ∧
    Effect.mdnsShutdown ∉
      (handleAddUser sampleCollaborators unadvertisedSession goodAddUser).2.2 ∧
    doneSends
      (startHttpHandler sampleCollaborators unadvertisedSession goodAddUser).2 = 0 := by
  refine ⟨by decide, by decide, by decide, by decide, by decide, rfl, by decide,
    by decide, by decide, by decide⟩

/-- C2: on a session that holds no credential, an `addUser` request in which
`userName`, `clientKey` or `blob` is empty makes `handleAddUser` return the
error `Bad username request` and leaves the session as it was: the credential
stays empty and the only effect is the log line, so neither the codec nor
`saveToFile` nor `mdnsServer.Shutdown()` is called; the HTTP handler sends
nothing on `done` either. -/
theorem handleAddUser_badRequest (C : Collaborators) (d : discovery) (r : Request)
    (hcred : d.loginBlob.Username = "")
    (hmissing : r.FormValue "userName" = "" ∨ r.FormValue "clientKey" = "" ∨
      r.FormValue "blob" = "") :
    handleAddUser C d r =
      (d, Completion.returns (some "Bad username request"),
        [Effect.logPrintln "Bad request, addUser"]) ∧
    (handleAddUser C d r).1.loginBlob.Username = "" ∧
    (∀ e ∈ (handleAddUser C d r).2.2, e = Effect.logPrintln "Bad request, addUser") ∧
    (r.FormValue "action" = "addUser" →
      startHttpHandler C d r = (d, [Effect.logPrintln "Bad request, addUser"])) := by
  have h := handleAddUser_of_missing C d r hcred hmissing
  refine ⟨h, ?_, ?_, ?_⟩
  · rw [h]; exact hcred
  · rw [h]; simp
  · intro hact
    simp [startHttpHandler, hact, h]

/-- The statement of C2 on a fresh session and a request with an empty
`blob`. -/
theorem handleAddUser_badRequest_witness :
    freshSession.loginBlob.Username = "" ∧
    emptyBlobAddUser.FormValue "blob" = "" ∧
    handleAddUser sampleCollaborators freshSession emptyBlobAddUser =
      (freshSession, Completion.returns (some "Bad username request"),
        [Effect.logPrintln "Bad request, addUser"]) :=
  ⟨by decide, by decide,
    (handleAddUser_badRequest sampleCollaborators freshSession emptyBlobAddUser
      (by decide) (by decide)).1⟩

/-- C4: on a session that holds no credential, an `addUser` request with all
three fields non-empty whose blob the codec rejects makes `handleAddUser`
return the error `failed to decode blob`; the session is unchanged (the
credential still empty), the only effect is the codec call (nothing is
saved, `Shutdown` is not called), and the HTTP handler that served the
request sends nothing on `done`. -/
theorem handleAddUser_decodeError (C : Collaborators) (d : discovery) (r : Request)
    (msg : String) (hcred : d.loginBlob.Username = "")
    (huser : r.FormValue "userName" ≠ "") (hkey : r.FormValue "clientKey" ≠ "")
    (hblob : r.FormValue "blob" ≠ "")
    (hdec : C.newBlobInfo (r.FormValue "blob") (r.FormValue "clientKey") d.keys
      d.deviceId (r.FormValue "userName") = Except.error msg) :
    handleAddUser C d r =
      (d, Completion.returns (some "failed to decode blob"),
        [Effect.newBlobInfo (r.FormValue "blob") (r.FormValue "clientKey") d.keys
          d.deviceId (r.FormValue "userName")]) ∧
    (handleAddUser C d r).1.loginBlob.Username = "" ∧
    (r.FormValue "action" = "addUser" →
      (startHttpHandler C d r).1 = d ∧
      (startHttpHandler C d r).2 =
        [Effect.newBlobInfo (r.FormValue "blob") (r.FormValue "clientKey") d.keys
          d.deviceId (r.FormValue "userName")] ∧
      doneSends (startHttpHandler C d r).2 = 0) := by
  have h := handleAddUser_of_decodeError C d r msg hcred huser hkey hblob hdec
  refine ⟨h, ?_, ?_⟩
  · rw [h]; exact hcred
  · intro hact
    simp [startHttpHandler, hact, h, doneSends]

/-- The statement of C4 on a fresh session and a request whose blob the
sample codec rejects. -/
theorem handleAddUser_decodeError_witness :
    freshSession.loginBlob.Username = "" ∧
    sampleCollaborators.newBlobInfo "garbage" "a2V5" freshSession.keys "dev1" "carol" =
      Except.error "bad blob" ∧
    (handleAddUser sampleCollaborators freshSession garbageAddUser).1 = freshSession ∧
    (handleAddUser sampleCollaborators freshSession garbageAddUser).2.1 =
      Completion.returns (some "failed to decode blob") ∧
    doneSends (startHttpHandler sampleCollaborators freshSession garbageAddUser).2 = 0 :=
  have h := handleAddUser_decodeError sampleCollaborators freshSession garbageAddUser
    "bad blob" (by decide) (by decide) (by decide) (by decide) rfl
  ⟨by decide, rfl, by rw [h.1], by rw [h.1], (h.2.2 (by decide)).2.2⟩

/-! ## The HTTP handler -/

theorem startHttpHandler_addUser_of_held (C : Collaborators) (d : discovery)
    (r : Request) (hact : r.FormValue "action" = "addUser")
    (hheld : d.loginBlob.Username ≠ "") :
    startHttpHandler C d r = (d, [Effect.doneSend 1]) := by
  simp [startHttpHandler, hact, handleAddUser_of_held C d r hheld]

theorem startHttpHandler_status (C : Collaborators) (d : discovery) (r : Request)
    (hact : r.FormValue "action" = "getInfo" ∨ r.FormValue "action" = "resetUsers") :
    startHttpHandler C d r =
      (d, [Effect.setHeader "Content-Type" "application/json",
           Effect.writeJSON
             (makeGetInfo d.deviceId "spotcontrol" (base64StdEncode d.keys.pubKey))]) := by
  simp [startHttpHandler, hact]

/-- C5, the code at a failing input: a fresh session serves a well-formed
`addUser` and then a second `addUser`.  The first request pairs the session
and the handler sends on `done`; for the second request `handleAddUser`
returns `nil` because a credential is held, and the handler executes
`done <- 1` a second time. -/
theorem serveRequests_sends_done_twice :
    (serveRequests sampleCollaborators freshSession [goodAddUser, otherAddUser]).2 =
      [Effect.newBlobInfo "YmxvYg==" "a2V5" freshSession.keys "dev1" "alice",
       Effect.saveToFile ⟨"alice", [1, 2, 3]⟩ "",
       Effect.mdnsShutdown,
       Effect.doneSend 1,
       Effect.doneSend 1] ∧
    doneSends
      (serveRequests sampleCollaborators freshSession [goodAddUser, otherAddUser]).2 = 2 := by
  decide

/-- C6 fails: on a fresh session the well-formed request is served first and
succeeds; the request with the empty `blob` that follows is not answered
with a bad-request error: `handleAddUser` returns `nil`. -/
theorem handleAddUser_emptyBlob_after_pairing :
    freshSession.loginBlob.Username = "" ∧
    goodAddUser.FormValue "userName" ≠ "" ∧
    goodAddUser.FormValue "clientKey" ≠ "" ∧
    goodAddUser.FormValue "blob" ≠ "" ∧
    sampleCollaborators.newBlobInfo (goodAddUser.FormValue "blob")
      (goodAddUser.FormValue "clientKey") freshSession.keys freshSession.deviceId
      (goodAddUser.FormValue "userName") = Except.ok ⟨"alice", [1, 2, 3]⟩ ∧
    emptyBlobAddUser.FormValue "blob" = "" ∧
    (handleAddUser sampleCollaborators freshSession goodAddUser).2.1 =
      Completion.returns none ∧
    (handleAddUser sampleCollaborators
      (handleAddUser sampleCollaborators freshSession goodAddUser).1
      emptyBlobAddUser).2.1 = Completion.returns none ∧
    (handleAddUser sampleCollaborators
      (handleAddUser sampleCollaborators freshSession goodAddUser).1
      emptyBlobAddUser).2.1 ≠ Completion.returns (some "Bad username request") := by
  refine ⟨by decide, by decide, by decide, by decide, rfl, by decide, by decide,
    by decide, by decide⟩

/-- C6 as amended: from a session that holds no credential and whose
advertiser is set, with a well-formed `addUser` request whose blob decodes
to a credential with a non-empty user name and an `addUser` request with an
empty `blob`.  When the malformed request is served first it gets the error
`Bad username request` and leaves the session unchanged, and the well-formed
request then succeeds and stores its credential.  When the well-formed
request is served first it succeeds and stores its credential, and the
malformed request that follows is accepted with `nil` as a no-op. -/
theorem handleAddUser_wellFormed_and_emptyBlob (C : Collaborators) (d : discovery)
    (good bad : Request) (blob : BlobInfo) (srv : MdnsServer)
    (hcred : d.loginBlob.Username = "") (hserver : d.mdnsServer = some srv)
    (huser : good.FormValue "userName" ≠ "") (hkey : good.FormValue "clientKey" ≠ "")
    (hblob : good.FormValue "blob" ≠ "")
    (hdec : C.newBlobInfo (good.FormValue "blob") (good.FormValue "clientKey") d.keys
      d.deviceId (good.FormValue "userName") = Except.ok blob)
    (hname : blob.Username ≠ "") (hbad : bad.FormValue "blob" = "") :
    ((handleAddUser C d bad).2.1 = Completion.returns (some "Bad username request") ∧
     (handleAddUser C d bad).1 = d ∧
     (handleAddUser C (handleAddUser C d bad).1 good).2.1 = Completion.returns none ∧
     (handleAddUser C (handleAddUser C d bad).1 good).1.loginBlob = blob) ∧
    ((handleAddUser C d good).2.1 = Completion.returns none ∧
     (handleAddUser C d good).1.loginBlob = blob ∧
     handleAddUser C (handleAddUser C d good).1 bad =
       ((handleAddUser C d good).1, Completion.returns none, []) ∧
     (handleAddUser C (handleAddUser C d good).1 bad).1.loginBlob = blob) := by
  have hb := handleAddUser_of_missing C d bad hcred (Or.inr (Or.inr hbad))
  have hg := handleAddUser_of_decoded C d good blob srv hcred hserver huser hkey hblob hdec
  have hgb : handleAddUser C (handleAddUser C d good).1 bad =
      ((handleAddUser C d good).1, Completion.returns none, []) :=
    handleAddUser_of_held C _ bad (by rw [hg]; exact hname)
  refine ⟨⟨by rw [hb], by rw [hb], ?_, ?_⟩, ⟨by rw [hg], by rw [hg], hgb, ?_⟩⟩
  · rw [hb, hg]
  · rw [hb, hg]
  · rw [hgb, hg]

/-- The amended C6 on a fresh session, the well-formed sample request and
the sample request with an empty `blob`. -/
theorem handleAddUser_wellFormed_and_emptyBlob_witness :
    freshSession.loginBlob.Username = "" ∧
    freshSession.mdnsServer = some ⟨"spotcontrol189"⟩ ∧
    emptyBlobAddUser.FormValue "blob" = "" ∧
    (handleAddUser sampleCollaborators freshSession emptyBlobAddUser).2.1 =
      Completion.returns (some "Bad username request") ∧
    handleAddUser sampleCollaborators
      (handleAddUser sampleCollaborators freshSession goodAddUser).1 emptyBlobAddUser =
      ((handleAddUser sampleCollaborators freshSession goodAddUser).1,
        Completion.returns none, []) :=
  have h := handleAddUser_wellFormed_and_emptyBlob sampleCollaborators freshSession
    goodAddUser emptyBlobAddUser ⟨"alice", [1, 2, 3]⟩ ⟨"spotcontrol189"⟩ (by decide) rfl
    (by decide) (by decide) (by decide) rfl (by decide) (by decide)
  ⟨by decide, rfl, by decide, h.1.1, h.2.2.2.1⟩

/-- C7: whatever the session, before or after pairing, a request with action
`getInfo` or `resetUsers` leaves the session (its credential included)
unchanged and is answered with one and the same status document,
`makeGetInfo` of the session's device id, the name `spotcontrol` and the
standard base64 encoding of the session's public key: status 101,
statusError `ERROR-OK`, that device id, that key, accountReq `PREMIUM`.
Hence a whole sequence of such requests leaves the session unchanged and
every one of them gets this response. -/
theorem startHttpHandler_getInfo_resetUsers (C : Collaborators) (d : discovery)
    (rs : List Request)
    (hact : ∀ r ∈ rs, r.FormValue "action" = "getInfo" ∨
      r.FormValue "action" = "resetUsers") :
    (∀ r ∈ rs, (startHttpHandler C d r).1 = d ∧
      (startHttpHandler C d r).1.loginBlob = d.loginBlob ∧
      (startHttpHandler C d r).2 =
        [Effect.setHeader "Content-Type" "application/json",
         Effect.writeJSON
           (makeGetInfo d.deviceId "spotcontrol" (base64StdEncode d.keys.pubKey))]) ∧
    (makeGetInfo d.deviceId "spotcontrol" (base64StdEncode d.keys.pubKey)).Status = 101 ∧
    (makeGetInfo d.deviceId "spotcontrol" (base64StdEncode d.keys.pubKey)).StatusError =
      "ERROR-OK" ∧
    (makeGetInfo d.deviceId "spotcontrol" (base64StdEncode d.keys.pubKey)).DeviceID =
      d.deviceId ∧
    (makeGetInfo d.deviceId "spotcontrol" (base64StdEncode d.keys.pubKey)).PublicKey =
      base64StdEncode d.keys.pubKey ∧
    (makeGetInfo d.deviceId "spotcontrol" (base64StdEncode d.keys.pubKey)).AccountReq =
      "PREMIUM" ∧
    (serveRequests C d rs).1 = d ∧
    (serveRequests C d rs).2 =
      (List.replicate rs.length
        [Effect.setHeader "Content-Type" "application/json",
         Effect.writeJSON
           (makeGetInfo d.deviceId "spotcontrol"
             (base64StdEncode d.keys.pubKey))]).flatten := by
  refine ⟨?_, rfl, rfl, rfl, rfl, rfl, ?_⟩
  · intro r hr
    rw [startHttpHandler_status C d r (hact r hr)]
    exact ⟨rfl, rfl, rfl⟩
  · induction rs with
    | nil => exact ⟨rfl, rfl⟩
    | cons r rest ih =>
      have hr := startHttpHandler_status C d r (hact r (List.mem_cons_self r rest))
      have ih1 := ih (fun q hq => hact q (List.mem_cons_of_mem r hq))
      constructor
      · simp only [serveRequests, hr]
        exact ih1.1
      · simp only [serveRequests, hr, ih1.2, List.length_cons, List.replicate_succ,
          List.flatten_cons]

/-- The statement of C7 on a paired session that is asked `getInfo`,
`resetUsers` and `getInfo` again. -/
theorem startHttpHandler_getInfo_resetUsers_witness :
    (serveRequests sampleCollaborators pairedSession
      [getInfoRequest, resetUsersRequest, getInfoRequest]).1 = pairedSession ∧
    (startHttpHandler sampleCollaborators pairedSession resetUsersRequest).2 =
      [Effect.setHeader "Content-Type" "application/json",
       Effect.writeJSON (makeGetInfo "dev1" "spotcontrol" "TWFu")] :=
  have h := startHttpHandler_getInfo_resetUsers sampleCollaborators pairedSession
    [getInfoRequest, resetUsersRequest, getInfoRequest] (by decide)
  ⟨h.2.2.2.2.2.2.1, (h.1 resetUsersRequest (by decide)).2.2⟩

/-! ## Device lookup -/

theorem splitChars_ne_nil (sep : List Char) (s : List Char) :
    ∀ (skip : Nat) (cur : List Char),
      ∃ x xs, splitChars sep skip cur s = x :: xs := by
  induction s with
  | nil => intro skip cur; exact ⟨cur.reverse, [], by simp [splitChars]⟩
  | cons c cs ih =>
    intro skip cur
    cases skip with
    | succ k =>
      obtain ⟨x, xs, h⟩ := ih k cur
      exact ⟨x, xs, by simp [splitChars, h]⟩
    | zero =>
      by_cases hp : sep.isPrefixOf (c :: cs) = true
      · exact ⟨cur.reverse, splitChars sep (sep.length - 1) [] cs, by
          simp [splitChars, hp]⟩
      · obtain ⟨x, xs, h⟩ := ih 0 (c :: cur)
        exact ⟨x, xs, by simp [splitChars, hp, h]⟩

theorem splitChars_of_no_sep (s : List Char) :
    ∀ cur : List Char, '=' ∉ s → splitChars ['='] 0 cur s = [cur.reverse ++ s] := by
  induction s with
  | nil => intro cur _; simp [splitChars]
  | cons c cs ih =>
    intro cur hne
    have hc : ¬ ('=' = c) := fun h => hne (h ▸ List.mem_cons_self _ cs)
    have hcs : '=' ∉ cs := fun h => hne (List.mem_cons_of_mem c h)
    simp [splitChars, List.isPrefixOf, hc, ih (c :: cur) hcs]

theorem findCpath_of_no_equals (a : String) (rest : List String)
    (hc : stringsContains a "CPath" = true) (hne : '=' ∉ a.data) :
    findCpath (a :: rest) = none := by
  have hs : stringsSplit a "=" = [a] := by
    have h := splitChars_of_no_sep a.data [] hne
    have hsep : ("=" : String).data = ['='] := rfl
    simp [stringsSplit, hsep, h]
  simp [findCpath, hc, hs]

theorem findCpath_of_firstCPathWellFormed (info : List String)
    (hwf : firstCPathWellFormed info = true) : ∃ p, findCpath info = some p := by
  induction info with
  | nil => simp [firstCPathWellFormed] at hwf
  | cons a rest ih =>
    by_cases hc : stringsContains a "CPath" = true
    · simp only [firstCPathWellFormed, hc, if_true] at hwf
      obtain ⟨t, ht⟩ := List.isPrefixOf_iff_prefix.mp hwf
      have hd : a.data = 'C' :: 'P' :: 'a' :: 't' :: 'h' :: '=' :: t := by
        rw [← ht]; rfl
      obtain ⟨x, xs, hx⟩ := splitChars_ne_nil ['='] t 0 []
      have hsep : ("=" : String).data = ['='] := rfl
      refine ⟨String.mk x, ?_⟩
      simp [findCpath, hc, stringsSplit, hsep, hd, splitChars, List.isPrefixOf, hx]
    · simp only [firstCPathWellFormed, hc] at hwf
      obtain ⟨p, hp⟩ := ih (by simpa using hwf)
      exact ⟨p, by simp [findCpath, hc, hp]⟩

theorem findCpath_of_no_CPath (info : List String)
    (hno : ∀ a ∈ info, stringsContains a "CPath" = false) :
    findCpath info = some "" := by
  induction info with
  | nil => rfl
  | cons a rest ih =>
    have ha := hno a (List.mem_cons_self a rest)
    simp [findCpath, ha, ih (fun b hb => hno b (List.mem_cons_of_mem a hb))]

theorem onEntry_of_findCpath (entry : ServiceEntry) (cPath : String)
    (h : findCpath entry.InfoFields = some cPath) (devices : List connectDeviceMdns) :
    onEntry devices entry = some (devices ++
      [{ path := "http://" ++ entry.AddrV4 ++ ":" ++ toString entry.Port ++ cPath,
         name := stringsReplaceFirst entry.Name "._spotify-connect._tcp.local." "" }]) := by
  simp [onEntry, h]

theorem receiveEntries_pointwise (entries : List ServiceEntry)
    (hwf : ∀ e ∈ entries, firstCPathWellFormed e.InfoFields = true) :
    ∀ devices : List connectDeviceMdns,
      ∃ added, receiveEntries devices entries = some (devices ++ added) ∧
        List.Forall₂ (fun e x => ∀ ds, onEntry ds e = some (ds ++ [x])) entries added := by
  induction entries with
  | nil => intro devices; exact ⟨[], by simp [receiveEntries], List.Forall₂.nil⟩
  | cons e rest ih =>
    intro devices
    obtain ⟨p, hp⟩ := findCpath_of_firstCPathWellFormed e.InfoFields
      (hwf e (List.mem_cons_self e rest))
    obtain ⟨added, hadd, hall⟩ :=
      ih (fun q hq => hwf q (List.mem_cons_of_mem e hq)) (devices ++
        [{ path := "http://" ++ e.AddrV4 ++ ":" ++ toString e.Port ++ p,
           name := stringsReplaceFirst e.Name "._spotify-connect._tcp.local." "" }])
    refine ⟨_ :: added, ?_, List.Forall₂.cons (fun ds => onEntry_of_findCpath e p hp ds) hall⟩
    simp [receiveEntries, onEntry_of_findCpath e p hp devices, hadd]

/-- The receive loop only appends and never deduplicates.  When in every
entry the first attribute that contains `CPath` has the form `CPath=<path>`,
the loop ends with the old `devices` followed by one new device per entry,
in order of arrival: each entry on its own appends exactly one device at the
end of whatever list it meets, the list before is a prefix of the list
after, and the length grows by the number of entries, identical entries
included. -/
theorem receiveEntries_appendOnly (devices : List connectDeviceMdns)
    (entries : List ServiceEntry)
    (hwf : ∀ e ∈ entries, firstCPathWellFormed e.InfoFields = true) :
    (∃ added, receiveEntries devices entries = some (devices ++ added) ∧
      List.Forall₂ (fun e x => ∀ ds, onEntry ds e = some (ds ++ [x])) entries added ∧
      added.length = entries.length ∧
      (devices ++ added).length = devices.length + entries.length ∧
      List.IsPrefix devices (devices ++ added)) ∧
    (∀ d : discovery, ∃ d1, FindDevices d entries = some d1 ∧
      d1.devices.length = entries.length) := by
  obtain ⟨added, hadd, hall⟩ := receiveEntries_pointwise entries hwf devices
  have hlen : added.length = entries.length := hall.length_eq.symm
  refine ⟨⟨added, hadd, hall, hlen, by simp [hlen], List.prefix_append devices added⟩, ?_⟩
  intro d
  obtain ⟨found, hfound, hall0⟩ := receiveEntries_pointwise entries hwf []
  refine ⟨{ d with devices := found }, ?_, hall0.length_eq.symm⟩
  simp [FindDevices, hfound]

/-- Three identical entries of one peer, each with `CPath=/` as its only
callback-path attribute: three devices are registered. -/
theorem receiveEntries_three_identical :
    (FindDevices pairedSession [sampleEntry, sampleEntry, sampleEntry]).map
        (fun d => d.devices) =
      some [⟨"http://192.168.1.20:8080/", "kitchen"⟩,
            ⟨"http://192.168.1.20:8080/", "kitchen"⟩,
            ⟨"http://192.168.1.20:8080/", "kitchen"⟩] := by
  decide

/-- C8, the code at a failing input: a lookup entry carries the well-formed
attribute `CPath=/`, listed after an attribute `CPath` without `=`.
`findCpath` reads the first attribute that contains `CPath`, its index `[1]`
is out of range and the loop body panics: no device is appended for the
entry, and the entries that follow are not processed either.  With the two
attributes in the other order the entry is appended. -/
theorem onEntry_shadowedEntry_panics :
    "CPath=/" ∈ shadowedEntry.InfoFields ∧
    stringsSplit "CPath=/" "=" = ["CPath", "/"] ∧
    findCpath ["CPath=/", "CPath"] = some "/" ∧
    findCpath shadowedEntry.InfoFields = none ∧
    onEntry [⟨"http://10.0.0.2:80/", "hall"⟩] shadowedEntry = none ∧
    (∀ x, onEntry [⟨"http://10.0.0.2:80/", "hall"⟩] shadowedEntry ≠
      some ([⟨"http://10.0.0.2:80/", "hall"⟩] ++ [x])) ∧
    receiveEntries [⟨"http://10.0.0.2:80/", "hall"⟩] [shadowedEntry, sampleEntry] =
      none := by
  have h : onEntry [⟨"http://10.0.0.2:80/", "hall"⟩] shadowedEntry = none := by decide
  refine ⟨by decide, by decide, by decide, by decide, h, ?_, by decide⟩
  intro x hx
  rw [h] at hx
  exact Option.noConfusion hx

/-- C9 fails: an entry none of whose attributes contains `CPath` is not
dropped; the loop appends a device for it. -/
theorem onEntry_bareEntry_appended :
    (∀ a ∈ bareEntry.InfoFields, stringsContains a "CPath" = false) ∧
    findCpath bareEntry.InfoFields = some "" ∧
    onEntry [] bareEntry = some [⟨"http://192.168.1.20:8080", "kitchen"⟩] ∧
    onEntry [] bareEntry ≠ some [] := by
  decide

/-- C9 as amended: for an entry none of whose attributes contains `CPath`,
`findCpath` returns the empty string and the loop still appends exactly one
device for the entry, at the end of the list; its address is
`http://<address>:<port>` with an empty path and its name is the entry's
name without the service suffix. -/
theorem onEntry_without_CPath (devices : List connectDeviceMdns) (entry : ServiceEntry)
    (hno : ∀ a ∈ entry.InfoFields, stringsContains a "CPath" = false) :
    findCpath entry.InfoFields = some "" ∧
    onEntry devices entry = some (devices ++
      [{ path := "http://" ++ entry.AddrV4 ++ ":" ++ toString entry.Port,
         name := stringsReplaceFirst entry.Name "._spotify-connect._tcp.local." "" }]) ∧
    receiveEntries devices [entry] ≠ some devices := by
  have h := findCpath_of_no_CPath entry.InfoFields hno
  have ho := onEntry_of_findCpath entry "" h devices
  rw [String.append_empty] at ho
  refine ⟨h, ho, ?_⟩
  simp [receiveEntries, ho]

/-- The amended C9 on a sample entry without callback-path attribute. -/
theorem onEntry_without_CPath_witness :
    (∀ a ∈ bareEntry.InfoFields, stringsContains a "CPath" = false) ∧
    onEntry [⟨"http://10.0.0.2:80/", "hall"⟩] bareEntry =
      some [⟨"http://10.0.0.2:80/", "hall"⟩, ⟨"http://192.168.1.20:8080", "kitchen"⟩] :=
  ⟨by decide,
    (onEntry_without_CPath [⟨"http://10.0.0.2:80/", "hall"⟩] bareEntry (by decide)).2.1⟩

/-- C10, the code at a failing input: for an attribute that contains `CPath`
and no `=`, `strings.Split` returns a single piece and the index `[1]` of
`findCpath` is out of range; the panic ends the receive loop of
`FindDevices`. -/
theorem findCpath_panics_without_equals :
    stringsContains "CPath" "CPath" = true ∧
    stringsSplit "CPath" "=" = ["CPath"] ∧
    findCpath ["CPath"] = none ∧
    findCpath malformedEntry.InfoFields = none ∧
    FindDevices pairedSession [sampleEntry, malformedEntry] = none := by
  decide

/-! ## Checks of the standard-library models -/

theorem base64StdEncode_rfc4648 :
    base64StdEncode [] = "" ∧
    base64StdEncode [102] = "Zg==" ∧
    base64StdEncode [102, 111] = "Zm8=" ∧
    base64StdEncode [102, 111, 111] = "Zm9v" ∧
    base64StdEncode [102, 111, 111, 98] = "Zm9vYg==" ∧
    base64StdEncode [102, 111, 111, 98, 97] = "Zm9vYmE=" ∧
    base64StdEncode [102, 111, 111, 98, 97, 114] = "Zm9vYmFy" ∧
    base64StdEncode [255, 255, 255, 0] = "////AA==" ∧
    base64StdEncode [251, 239] = "++8=" := by
  decide

theorem stringsSplit_samples :
    stringsSplit "a=b=c" "=" = ["a", "b", "c"] ∧
    stringsSplit "" "=" = [""] ∧
    stringsSplit "CPath=/" "=" = ["CPath", "/"] ∧
    stringsSplit "=x=" "=" = ["", "x", ""] ∧
    stringsSplit "a, b, c" ", " = ["a", "b", "c"] ∧
    stringsSplit "abc" "" = ["a", "b", "c"] := by
  decide

theorem stringsContains_samples :
    stringsContains "CPath=/" "CPath" = true ∧
    stringsContains "xCPathy" "CPath" = true ∧
    stringsContains "VERSION=1.0" "CPath" = false ∧
    stringsContains "cpath=/" "CPath" = false ∧
    stringsContains "" "" = true := by
  decide

theorem stringsReplaceFirst_samples :
    stringsReplaceFirst "kitchen._spotify-connect._tcp.local."
      "._spotify-connect._tcp.local." "" = "kitchen" ∧
    stringsReplaceFirst "kitchen" "._spotify-connect._tcp.local." "" = "kitchen" ∧
    stringsReplaceFirst "a.b.a.b" ".b" "" = "a.a.b" := by
  decide

theorem findCpath_samples :
    findCpath ["VERSION=1.0", "CPath=/"] = some "/" ∧
    findCpath ["CPath=/zc/0", "CPath=/other"] = some "/zc/0" ∧
    findCpath ["CPath=/a=b"] = some "/a" ∧
    findCpath ["VERSION=1.0"] = some "" ∧
    findCpath [] = some "" := by
  decide

end spotcontrol
